import Mathlib

/-!
Verification development for the cleanroom-api merge pipeline
(`src/app/api/v1/companies/merge/route.ts`), its CRM client
(`src/lib/crm/hubspot.ts`, `src/lib/crm/types.ts`), the validation library
(`src/lib/validation.ts`), and the clean endpoint's dynamic schema builder.

The TypeScript route handlers are shallowly embedded as pure Lean functions.
External effects (model inference, record-store HTTP calls, usage tracking)
are represented by an environment record holding each call's outcome and by
an ordered trace of emitted events, so that the orchestration logic itself
is a total, executable function.
-/

/-- JSON-like values, used to model the untyped caller-supplied `company`
object and the truthiness / `typeof` checks the route performs on it. -/
inductive Json where
  | null
  | bool (b : Bool)
  | num (n : Int)
  | str (s : String)
  | arr (elems : List Json)
  | obj (fields : List (String × Json))

/-- JavaScript truthiness for the modelled JSON values (`!v` in the source).
Objects and arrays are always truthy; `null`, `false`, `0` and `""` are falsy. -/
def jsTruthy : Json → Bool
  | Json.null => false
  | Json.bool b => b
  | Json.num n => n != 0
  | Json.str s => s != ""
  | Json.arr _ => true
  | Json.obj _ => true

/-- JavaScript `typeof v === "object"`: true for objects, arrays and `null`. -/
def jsTypeofObject : Json → Bool
  | Json.null => true
  | Json.arr _ => true
  | Json.obj _ => true
  | _ => false

/-- JavaScript whitespace accepted by `String.prototype.trim` (the subset
relevant to this development). -/
def isJsWhitespace (c : Char) : Bool :=
  c == ' ' || c == '\t' || c == '\n' || c == '\r'

/-- Model of JavaScript `s.trim()`. -/
def jsTrim (s : String) : String :=
  String.mk (((s.toList.dropWhile isJsWhitespace).reverse.dropWhile isJsWhitespace).reverse)

/-- Whether `pat` occurs as a contiguous sublist. -/
def containsSublist (pat : List Char) : List Char → Bool
  | [] => List.isPrefixOf pat []
  | c :: rest => List.isPrefixOf pat (c :: rest) || containsSublist pat rest

/-- JavaScript `s.includes(pat)`. -/
def jsIncludes (s pat : String) : Bool :=
  containsSublist pat.toList s.toList

/-- `r && typeof r === "string" && r.trim()` — the guard the merge route uses
before appending a caller rule to a schema description. -/
def jsRuleProvided : Option String → Bool
  | none => false
  | some s => s != "" && jsTrim s != ""

/-! ## CRM provider detection and client factory (`src/lib/crm/types.ts`) -/

/-- CRM providers recognised by `detectCRMFromHeaders`. -/
inductive CRMProvider where
  | hubspot
  | attio
  | zoho
  | salesforce
deriving Repr, DecidableEq

/-- A detected CRM credential: provider tag plus the caller's API key. -/
structure CRMCredentials where
  provider : CRMProvider
  apiKey : String
deriving Repr, DecidableEq

/-- The four provider-specific request headers the detector looks at. -/
structure CRMHeaders where
  hubspotKey : Option String
  attioKey : Option String
  zohoKey : Option String
  salesforceKey : Option String
deriving Repr, DecidableEq

/-- `headers.get(name)` followed by the truthiness test `if (key)`: an absent
header and an empty-string header are both treated as missing. -/
def presentHeader : Option String → Option String
  | some k => if k == "" then none else some k
  | none => none

/-- `detectCRMFromHeaders` (`src/lib/crm/types.ts` lines 39-77): checks
x-hubspot-api-key, then x-attio-api-key, then x-zoho-api-key, then
x-salesforce-api-key, returning the first credential found. -/
def detectCRMFromHeaders (h : CRMHeaders) : Option CRMCredentials :=
  match presentHeader h.hubspotKey with
  | some k => some { provider := CRMProvider.hubspot, apiKey := k }
  | none =>
    match presentHeader h.attioKey with
    | some k => some { provider := CRMProvider.attio, apiKey := k }
    | none =>
      match presentHeader h.zohoKey with
      | some k => some { provider := CRMProvider.zoho, apiKey := k }
      | none =>
        match presentHeader h.salesforceKey with
        | some k => some { provider := CRMProvider.salesforce, apiKey := k }
        | none => none

/-- `createCRMClient` (`src/lib/crm/types.ts` lines 82-99): only HubSpot has
an implementation; every other provider throws a "coming soon" error.  The
successful case carries the API key the constructed client will use. -/
def createCRMClient (c : CRMCredentials) : Except String String :=
  match c.provider with
  | CRMProvider.hubspot => Except.ok c.apiKey
  | CRMProvider.attio => Except.error "Attio integration coming soon"
  | CRMProvider.zoho => Except.error "Zoho integration coming soon"
  | CRMProvider.salesforce => Except.error "Salesforce integration coming soon"

/-! ## HubSpot client (`src/lib/crm/hubspot.ts`, timeout variant in
`src/unnamed/part_013`) -/

/-- Outcome of one underlying HTTP fetch: either the call completed with some
status code, or the fetch itself threw (network failure / abort on timeout). -/
inductive FetchOutcome where
  | respStatus (status : Nat)
  | networkError (msg : String)
deriving Repr, DecidableEq

/-- `response.ok`: status in the range 200-299. -/
def responseOk (status : Nat) : Bool :=
  decide (200 ≤ status) && decide (status < 300)

/-- `HubSpotClient.companyExists` (`src/lib/crm/hubspot.ts` lines 71-88 and
`src/unnamed/part_013` lines 89-107): returns `response.ok`, and its
`try/catch` converts any thrown fetch error into `false`.  It is total — it
never propagates an exception. -/
def companyExists : FetchOutcome → Bool
  | FetchOutcome.respStatus s => responseOk s
  | FetchOutcome.networkError _ => false

/-- The message of the error thrown by the HubSpot client on a non-ok
response: `HubSpot API error (${response.status}): ${error}` with the raw
upstream body interpolated. -/
def hubspotErrorMessage (status : Nat) (body : String) : String :=
  "HubSpot API error (" ++ toString status ++ "): " ++ body

/-! ## Validation library (`src/lib/validation.ts`) -/

/-- `VALIDATION_LIMITS.MAX_COMPANY_PROPERTIES`. -/
def MAX_COMPANY_PROPERTIES : Nat := 50

/-- `VALIDATION_LIMITS.MAX_STRING_LENGTH`. -/
def MAX_STRING_LENGTH : Nat := 10000

/-- Result shape returned by the validators. -/
structure ValidationResult where
  valid : Bool
  error : Option String
deriving Repr, DecidableEq

/-- Per-property check inside `validateCompanyObject`: an over-long string, a
nested object or an array is invalid (null passes, since `value !== null`
guards the object branch in the source). -/
def companyPropertyError (kv : String × Json) : Option String :=
  match kv.2 with
  | Json.str s =>
    if s.length > MAX_STRING_LENGTH then
      some ("Property " ++ kv.1 ++ " exceeds maximum length of 10000 characters")
    else none
  | Json.obj _ =>
    some ("Property " ++ kv.1 ++ " contains nested object or array. Only primitive values are supported.")
  | Json.arr _ =>
    some ("Property " ++ kv.1 ++ " contains nested object or array. Only primitive values are supported.")
  | _ => none

/-- First failing property, in iteration order, as the source's `for` loop
returns on the first violation. -/
def firstCompanyPropertyError : List (String × Json) → Option String
  | [] => none
  | kv :: rest =>
    match companyPropertyError kv with
    | some e => some e
    | none => firstCompanyPropertyError rest

/-- `validateCompanyObject` (`src/lib/validation.ts` lines 19-54): rejects an
empty object, more than 50 properties, over-long strings, and nested
objects/arrays. -/
def validateCompanyObject (fields : List (String × Json)) : ValidationResult :=
  if fields.length == 0 then
    { valid := false, error := some "Company object must contain at least one property" }
  else if fields.length > MAX_COMPANY_PROPERTIES then
    { valid := false, error := some "Too many properties. Maximum 50 allowed" }
  else
    match firstCompanyPropertyError fields with
    | some e => { valid := false, error := some e }
    | none => { valid := true, error := none }

/-- `validateContentType` (`src/lib/validation.ts` lines 172-189): requires a
header whose value contains "application/json". -/
def validateContentType (contentType : Option String) : ValidationResult :=
  match contentType with
  | none => { valid := false, error := some "Content-Type header is required" }
  | some s =>
    if jsIncludes s "application/json" then { valid := true, error := none }
    else { valid := false, error := some "Content-Type must be application/json" }

/-- The generic message `sanitizeErrorMessage` falls back to. -/
def genericErrorMessage : String :=
  "An error occurred while processing your request. Please contact support if this persists."

/-- `sanitizeErrorMessage` (`src/lib/validation.ts` lines 151-167): logs the
full error server-side (elided here) and returns the message itself only for
known-safe patterns, otherwise the generic fallback.  The argument is `some
message` for an `Error` instance and `none` otherwise. -/
def sanitizeErrorMessage (error : Option String) : String :=
  match error with
  | some message =>
    if jsIncludes message "Rate limit" || jsIncludes message "Invalid"
        || jsIncludes message "not found" then
      message
    else genericErrorMessage
  | none => genericErrorMessage

/-! ## Merge pipeline data model (`src/app/api/v1/companies/merge/route.ts`) -/

/-- One search filter produced by the stage-1 inference call, per the
`DUPLICATE_SEARCH_SCHEMA`: property name, operator, optional single value,
optional value list. -/
structure SearchFilter where
  propertyName : String
  operator : String
  value : Option String
  values : Option (List String)
deriving Repr, DecidableEq

/-- A filter group: filters AND-combined; groups OR-combined by the store. -/
structure FilterGroup where
  filters : List SearchFilter
deriving Repr, DecidableEq

/-- A company record as returned by the record-store search or fetch. -/
structure CompanyRec where
  id : String
  properties : List (String × String)
deriving Repr, DecidableEq

/-- The stage-2 inference output, per `MERGE_DECISION_SCHEMA`. -/
structure MergeDecision where
  recommendedAction : String
  reasoning : String
  confidence : String
  primaryRecordId : String
deriving Repr, DecidableEq

/-- The stage-3 inference output, per `MERGE_FIELD_SCHEMA`. -/
structure FieldMerge where
  primaryRecordPropertiesToUpdate : List (String × String)
  reasoning : String
  confidence : String
deriving Repr, DecidableEq

/-- The fixed URL of the HubSpot company-search endpoint the route posts to. -/
def hubspotSearchUrl : String :=
  "https://api.hubapi.com/crm/v3/objects/companies/search"

/-- The fixed property list the route requests from the search. -/
def searchProperties : List String :=
  ["name", "domain", "website", "phone", "city", "state", "zip", "country",
   "address", "linkedin", "createdate"]

/-- The JSON body of the search request: the stage-1 filter groups are
forwarded verbatim, with the fixed property list and `limit: 100`. -/
structure SearchRequestBody where
  filterGroups : List FilterGroup
  properties : List String
  limit : Nat
deriving Repr, DecidableEq

/-- A merge request as destructured by the route: the untyped `company` and
`recordId` values, the four optional rule inputs, and `mergeRecord`
(defaulting to false in the destructuring). -/
structure MergeRequest where
  apiKeyPresent : Bool
  headers : CRMHeaders
  company : Option Json
  recordId : Option Json
  duplicateRules : Option String
  primaryRules : Option String
  mergeRules : Option String
  mergePropertyRules : Option (List (String × String))
  mergeRecord : Bool

/-- Outcomes of every external call the pipeline can make, fixed up front so
the orchestration is a pure function of request plus environment.  `none`
for an inference stage models the capability returning no content; an
`Except.error` for a store call carries the upstream error body text. -/
structure MergeEnv where
  apiKeyValid : Bool
  accessAllowed : Bool
  bodyParses : Bool
  step1 : Option (List FilterGroup)
  search : Except String (List CompanyRec)
  step2 : Option MergeDecision
  fetchPrimary : Except String CompanyRec
  step3 : Option FieldMerge
  updateCompany : Except (Nat × String) Unit
  mergeCall : Except String Unit
deriving Repr

/-- Ordered trace of externally visible effects of one pipeline run. -/
inductive Event where
  | inference (stage : Nat)
  | storeSearch (url : String) (bearer : String) (body : SearchRequestBody)
  | storeFetch (recordId : String)
  | storeUpdate (recordId : String) (properties : List (String × String))
  | storeMerge (primaryObjectId : String) (objectIdToMerge : String)
  | trackUsage (amount : Nat)
deriving Repr, DecidableEq

/-- The success payload of the merge endpoint.  Fields that only some of the
three exit paths include (`primaryRecordId`, `fieldMergeAnalysis`,
`mergeRecord`, `recordUpdated`) are `Option`s; `none` means the JSON response
omits the field. -/
structure SuccessBody where
  recordId : String
  duplicatesFound : Bool
  duplicateCount : Nat
  duplicates : List CompanyRec
  recommendedAction : String
  reasoning : String
  confidence : String
  primaryRecordId : Option String
  fieldMergeAnalysis : Option FieldMerge
  mergeRecordFlag : Option Bool
  recordUpdated : Option Bool
  recordMerged : Bool
  creditCost : Nat
deriving Repr, DecidableEq

/-- The route's result: an error response with HTTP status and message, or a
success payload. -/
inductive MergeResult where
  | errorResp (status : Nat) (message : String)
  | success (body : SuccessBody)
deriving Repr, DecidableEq

/-- The early-exit response body (route lines 333-355): KEEP with fixed
reasoning, cost 1, `recordMerged: false`; no `primaryRecordId`,
`recordUpdated` or `mergeRecord` field is included. -/
def earlyExitBody (rid : String) : SuccessBody :=
  { recordId := rid, duplicatesFound := false, duplicateCount := 0, duplicates := [],
    recommendedAction := "KEEP",
    reasoning := "No duplicate records found in CRM search",
    confidence := "HIGH", primaryRecordId := none, fieldMergeAnalysis := none,
    mergeRecordFlag := none, recordUpdated := none, recordMerged := false,
    creditCost := 1 }

/-- The stage-2 exit response body (route lines 419-445): the decision is
spread into the response unchanged, cost 2, `recordMerged: false`; no
`recordUpdated` or `mergeRecord` field is included. -/
def keepExitBody (rid : String) (otherDuplicates : List CompanyRec) (d : MergeDecision) : SuccessBody :=
  { recordId := rid, duplicatesFound := true, duplicateCount := otherDuplicates.length,
    duplicates := otherDuplicates,
    recommendedAction := d.recommendedAction, reasoning := d.reasoning,
    confidence := d.confidence, primaryRecordId := some d.primaryRecordId,
    fieldMergeAnalysis := none, mergeRecordFlag := none, recordUpdated := none,
    recordMerged := false, creditCost := 2 }

/-- The full-pipeline response body (route lines 593-630): decision spread
unchanged, the field-merge analysis, the `mergeRecord` flag and both write
outcome booleans, cost 3. -/
def fullBody (rid : String) (otherDuplicates : List CompanyRec) (d : MergeDecision)
    (plan : FieldMerge) (mergeFlag recUpdated recMerged : Bool) : SuccessBody :=
  { recordId := rid, duplicatesFound := true, duplicateCount := otherDuplicates.length,
    duplicates := otherDuplicates,
    recommendedAction := d.recommendedAction, reasoning := d.reasoning,
    confidence := d.confidence, primaryRecordId := some d.primaryRecordId,
    fieldMergeAnalysis := some plan, mergeRecordFlag := some mergeFlag,
    recordUpdated := some recUpdated, recordMerged := recMerged,
    creditCost := 3 }

/-! ## Merge pipeline orchestration (route lines 149-639), phase by phase.
Each phase receives the event trace accumulated so far and returns the
route's result together with the final trace. -/

/-- `!company || typeof company !== "object"` — the only validation the merge
route applies to `company` (route lines 211-216). -/
def mergeCompanyAccepted : Option Json → Bool
  | none => false
  | some v => jsTruthy v && jsTypeofObject v

/-- `!recordId || typeof recordId !== "string" || !recordId.trim()` (route
lines 218-223): the accepted record id, if any. -/
def recordIdString : Option Json → Option String
  | some (Json.str s) => if jsTrim s != "" then some s else none
  | _ => none

/-- STEP 6 of the route (lines 541-575): the merge call is issued
unconditionally once this point is reached with `mergeRecord` true; a non-ok
response aborts with the raw upstream body embedded in the message, otherwise
`recordMerged` becomes true and usage is tracked for 3 credits. -/
def mergePhase (rid : String) (d : MergeDecision) (plan : FieldMerge)
    (env : MergeEnv) (otherDuplicates : List CompanyRec) (recUpdated : Bool)
    (evs : List Event) : MergeResult × List Event :=
  match env.mergeCall with
  | Except.error body =>
    (MergeResult.errorResp 500 ("CRM merge failed: " ++ body),
     evs ++ [Event.storeMerge d.primaryRecordId rid])
  | Except.ok _ =>
    (MergeResult.success (fullBody rid otherDuplicates d plan true recUpdated true),
     evs ++ [Event.storeMerge d.primaryRecordId rid, Event.trackUsage 3])

/-- STEP 5 of the route (lines 519-539), entered only with `mergeRecord`
true: if the field-merge plan is non-empty, `updateCompany` is attempted
first; its thrown `HubSpot API error (status): body` message is embedded in
the 500 response on failure.  An empty plan skips the update entirely. -/
def applyPhase (rid : String) (d : MergeDecision) (plan : FieldMerge)
    (env : MergeEnv) (otherDuplicates : List CompanyRec)
    (evs : List Event) : MergeResult × List Event :=
  if plan.primaryRecordPropertiesToUpdate.isEmpty then
    mergePhase rid d plan env otherDuplicates false evs
  else
    match env.updateCompany with
    | Except.error e =>
      (MergeResult.errorResp 500
        ("Failed to update primary record in CRM: " ++ hubspotErrorMessage e.1 e.2),
       evs ++ [Event.storeUpdate d.primaryRecordId plan.primaryRecordPropertiesToUpdate])
    | Except.ok _ =>
      mergePhase rid d plan env otherDuplicates true
        (evs ++ [Event.storeUpdate d.primaryRecordId plan.primaryRecordPropertiesToUpdate])

/-- STEP 4 onwards (route lines 448-630): construct the CRM client (which
throws "coming soon" for non-HubSpot providers, caught by the route's outer
handler as a bare 500), fetch the primary record (a thrown client error is
likewise caught by the outer handler), run the stage-3 inference, then either
apply (if `mergeRecord`) or assemble the cost-3 response directly. -/
def step3Phase (mergeFlag : Bool) (rid : String) (creds : CRMCredentials)
    (d : MergeDecision) (env : MergeEnv) (otherDuplicates : List CompanyRec)
    (evs : List Event) : MergeResult × List Event :=
  match createCRMClient creds with
  | Except.error _ => (MergeResult.errorResp 500 "Internal server error", evs)
  | Except.ok _ =>
    match env.fetchPrimary with
    | Except.error _ =>
      (MergeResult.errorResp 500 "Internal server error",
       evs ++ [Event.storeFetch d.primaryRecordId])
    | Except.ok _ =>
      match env.step3 with
      | none =>
        (MergeResult.errorResp 500 "Failed to generate field merge analysis",
         evs ++ [Event.storeFetch d.primaryRecordId, Event.inference 3])
      | some plan =>
        if mergeFlag then
          applyPhase rid d plan env otherDuplicates
            (evs ++ [Event.storeFetch d.primaryRecordId, Event.inference 3])
        else
          (MergeResult.success (fullBody rid otherDuplicates d plan false false false),
           evs ++ [Event.storeFetch d.primaryRecordId, Event.inference 3,
                   Event.trackUsage 3])

/-- STEP 3 of the route (lines 358-446): the stage-2 inference produces the
merge decision; no content is a 500; a KEEP decision or a self-primary id
exits at cost 2 with the decision spread into the response unchanged. -/
def decidePhase (mergeFlag : Bool) (rid : String) (creds : CRMCredentials)
    (env : MergeEnv) (otherDuplicates : List CompanyRec)
    (evs : List Event) : MergeResult × List Event :=
  match env.step2 with
  | none =>
    (MergeResult.errorResp 500 "Failed to generate merge decision",
     evs ++ [Event.inference 2])
  | some d =>
    if d.recommendedAction == "KEEP" || d.primaryRecordId == rid then
      (MergeResult.success (keepExitBody rid otherDuplicates d),
       evs ++ [Event.inference 2, Event.trackUsage 2])
    else
      step3Phase mergeFlag rid creds d env otherDuplicates
        (evs ++ [Event.inference 2])

/-- STEPS 1-2 of the route (lines 241-356): stage-1 inference builds the
filter groups (no content is a 500); the search posts them verbatim to the
HubSpot endpoint with the caller's CRM key; a non-ok search embeds the raw
upstream body in the 500 message; the current record is filtered out of the
results, and zero remaining duplicates exits at cost 1. -/
def searchPhase (mergeFlag : Bool) (rid : String) (creds : CRMCredentials)
    (env : MergeEnv) : MergeResult × List Event :=
  match env.step1 with
  | none =>
    (MergeResult.errorResp 500 "Failed to generate duplicate search filters",
     [Event.inference 1])
  | some filterGroups =>
    match env.search with
    | Except.error body =>
      (MergeResult.errorResp 500 ("CRM search failed: " ++ body),
       [Event.inference 1,
        Event.storeSearch hubspotSearchUrl creds.apiKey
          { filterGroups := filterGroups, properties := searchProperties, limit := 100 }])
    | Except.ok duplicates =>
      if (duplicates.filter (fun dup => dup.id != rid)).isEmpty then
        (MergeResult.success (earlyExitBody rid),
         [Event.inference 1,
          Event.storeSearch hubspotSearchUrl creds.apiKey
            { filterGroups := filterGroups, properties := searchProperties, limit := 100 },
          Event.trackUsage 1])
      else
        decidePhase mergeFlag rid creds env (duplicates.filter (fun dup => dup.id != rid))
          [Event.inference 1,
           Event.storeSearch hubspotSearchUrl creds.apiKey
             { filterGroups := filterGroups, properties := searchProperties, limit := 100 }]

/-- `POST /api/v1/companies/merge` (route lines 149-639): credential, quota,
body-parse and input checks in source order, CRM header detection, then the
staged pipeline. -/
def runMerge (req : MergeRequest) (env : MergeEnv) : MergeResult × List Event :=
  if !req.apiKeyPresent then (MergeResult.errorResp 401 "API key required", [])
  else if !env.apiKeyValid then (MergeResult.errorResp 401 "Invalid API key", [])
  else if !env.accessAllowed then (MergeResult.errorResp 403 "Insufficient credits", [])
  else if !env.bodyParses then (MergeResult.errorResp 400 "Invalid JSON in request body", [])
  else if !(mergeCompanyAccepted req.company) then
    (MergeResult.errorResp 400 "Company object is required", [])
  else
    match recordIdString req.recordId with
    | none => (MergeResult.errorResp 400 "recordId is required", [])
    | some rid =>
      match detectCRMFromHeaders req.headers with
      | none =>
        (MergeResult.errorResp 400
          "CRM API key required. Please provide x-hubspot-api-key header.", [])
      | some creds => searchPhase req.mergeRecord rid creds env

/-! ## Trace observations -/

/-- Whether an event is an inference (model) call. -/
def isInferenceEvent : Event → Bool
  | Event.inference _ => true
  | _ => false

/-- Number of inference stages actually executed in a trace. -/
def inferenceCount (evs : List Event) : Nat := evs.countP isInferenceEvent

/-- The amounts passed to `trackFeatureUsage`, in order. -/
def trackedAmounts (evs : List Event) : List Nat :=
  evs.filterMap fun e =>
    match e with
    | Event.trackUsage n => some n
    | _ => none

/-- Whether an event writes to the record store (`update` or `merge`). -/
def isStoreWriteEvent : Event → Bool
  | Event.storeUpdate _ _ => true
  | Event.storeMerge _ _ => true
  | _ => false

/-- The store-write events of a trace, in order. -/
def storeWriteEvents (evs : List Event) : List Event :=
  evs.filter isStoreWriteEvent

/-- Whether an event is a record-store fetch of the primary record. -/
def isStoreFetchEvent : Event → Bool
  | Event.storeFetch _ => true
  | _ => false

/-! ## Schema builders (route lines 244-248, 359-362, 456-469, and the clean
endpoint's `buildDynamicSchema`, `src/unnamed/part_004` lines 832-895) -/

/-- A stage schema as manipulated by the merge route: a natural-language
`description` plus the structural fields (`type`, `properties`, `enum`,
`required`, `additionalProperties`), which the builders deep-copy and never
touch.  `JSON.parse(JSON.stringify(base))` is value copying, so each build
starts from an identical independent copy of the base. -/
structure StageSchema where
  description : String
  structural : List (String × String)
deriving Repr, DecidableEq

/-- Route lines 245-248: `step1Schema.description` gains
` User duplicate rules: ${duplicateRules}` only when the rule passes the
`rules && typeof rules === "string" && rules.trim()` guard. -/
def buildStep1Schema (base : StageSchema) (duplicateRules : Option String) : StageSchema :=
  if jsRuleProvided duplicateRules then
    { base with description :=
        base.description ++ " User duplicate rules: " ++ duplicateRules.getD "" }
  else base

/-- Route lines 359-362: same pattern for the stage-2 decision schema. -/
def buildStep2Schema (base : StageSchema) (primaryRules : Option String) : StageSchema :=
  if jsRuleProvided primaryRules then
    { base with description :=
        base.description ++ " User primary record selection rules: " ++ primaryRules.getD "" }
  else base

/-- The stage-3 schema also carries the description of its
`primaryRecordPropertiesToUpdate` property, which per-property rules extend. -/
structure FieldMergeSchema where
  description : String
  propsDescription : String
  structural : List (String × String)
deriving Repr, DecidableEq

/-- Route lines 461-464: property rules with a string value whose trim is
non-empty, rendered as `property: rule` and comma-joined. -/
def propertyRulesText (rules : List (String × String)) : String :=
  String.intercalate ", "
    ((rules.filter (fun kv => jsTrim kv.2 != "")).map (fun kv => kv.1 ++ ": " ++ kv.2))

/-- Route lines 456-469: the stage-3 schema gains ` User merge rules: ...` on
its top-level description under the usual guard, and
` User property rules: ...` on the property description when the joined
per-property rule text is non-empty. -/
def buildStep3Schema (base : FieldMergeSchema) (mergeRules : Option String)
    (mergePropertyRules : Option (List (String × String))) : FieldMergeSchema :=
  let afterMergeRules :=
    if jsRuleProvided mergeRules then
      { base with description :=
          base.description ++ " User merge rules: " ++ mergeRules.getD "" }
    else base
  match mergePropertyRules with
  | none => afterMergeRules
  | some rules =>
    if propertyRulesText rules != "" then
      { afterMergeRules with propsDescription :=
          afterMergeRules.propsDescription ++ " User property rules: " ++ propertyRulesText rules }
    else afterMergeRules

/-- The clean endpoint's base schema description (`src/unnamed/part_004`
line 698). -/
def CLEAN_BASE_DESCRIPTION : String :=
  "CRM company data cleaning schema. RULES: (1) Valid data → unchanged. (2) Invalid/poor format + high confidence → correct it. (3) Invalid/test/placeholder + unknown → null. (4) Empty + no info → null. (5) Empty + high confidence → populate. Only provide values with high certainty."

/-- The text `buildDynamicSchema` splices between the base description and
the user rule (`src/unnamed/part_004` line 877). -/
def cleanRuleSuffix : String :=
  "\n\nIMPORTANT: Always prioritize the user-provided instructions below over the general description above.\n\nUser instructions: "

/-- The description produced by the clean endpoint's `buildDynamicSchema`
(`src/unnamed/part_004` lines 875-878): the guard is plain truthiness
`if (input.cleanRules)` — no trim — so any non-empty string is appended. -/
def buildCleanDescription (base : String) (cleanRules : Option String) : String :=
  match cleanRules with
  | some s => if s != "" then base ++ cleanRuleSuffix ++ s else base
  | none => base

/-! ## The Filter Sanitizer as specified.  No sanitisation exists anywhere in
the source: the merge route forwards `duplicateSearch.filterGroups` from the
stage-1 inference output verbatim into the search request body (route lines
278-302).  The definition below follows the spec text only, as the comparison
target for the refinement claim about filter values. -/

/-- Trailing structural characters the spec says are stripped. -/
def structuralTrailChars : List Char :=
  ['\x7b', '\x7d', '[', ']', ',', '\x22', '\x27']

/-- Characters at which the spec says the value is cut. -/
def filterCutChars : List Char := [':', '/', '?', '#', '&']

/-- Trim over character lists (same as `jsTrim`, kept in list form). -/
def jsTrimChars (cs : List Char) : List Char :=
  ((cs.dropWhile isJsWhitespace).reverse.dropWhile isJsWhitespace).reverse

/-- The characters of a leading `http://` protocol. -/
def httpProtocolChars : List Char := ['h', 't', 't', 'p', ':', '/', '/']

/-- The characters of a leading `https://` protocol. -/
def httpsProtocolChars : List Char := ['h', 't', 't', 'p', 's', ':', '/', '/']

/-- Modelled from the spec: the Filter Sanitizer of spec section 4.2, which
the source does not contain.  Trims, strips a leading `http://` or
`https://`, removes everything from the first `: / ? # &`, strips trailing
structural characters, and trims again.  (The protocol strip is applied
before the cut, since a cut at `:` first would make the protocol rule
unreachable.) -/
def specSanitizeFilterValue (v : String) : String :=
  let s1 := jsTrimChars v.toList
  let s2 :=
    if List.isPrefixOf httpProtocolChars s1 then s1.drop 7
    else if List.isPrefixOf httpsProtocolChars s1 then s1.drop 8
    else s1
  let s3 := s2.takeWhile (fun c => !(filterCutChars.contains c))
  let s4 := (s3.reverse.dropWhile (fun c => structuralTrailChars.contains c)).reverse
  String.mk (jsTrimChars s4)

/-- The malformed stage-1 output value from the spec scenario:
`acme.com` followed by the characters close-brace, close-bracket,
close-brace, comma, open-brace. -/
def malformedFilterValue : String := "acme.com\x7d]\x7d,\x7b"


/-! ## Clean endpoint record pre-verification (`src/unnamed/part_004`
lines 960-977) -/

/-- Whether the underlying existence-check fetch failed: any non-2xx
completion or any thrown network error. -/
def fetchFailed : FetchOutcome → Bool
  | FetchOutcome.respStatus s => !(responseOk s)
  | FetchOutcome.networkError _ => true

/-- The clean endpoint's pre-verification of `recordId` before calling the
model: builds the CRM client (a thrown "coming soon" is caught and reported
as a 500), asks `companyExists`, and answers 404 when it reports false.
Returns `some (status, message)` for an early error response, `none` when
verification passes. -/
def cleanVerifyRecord (creds : CRMCredentials) (recordId : String)
    (o : FetchOutcome) : Option (Nat × String) :=
  match createCRMClient creds with
  | Except.error _ => some (500, "Failed to verify company record in CRM")
  | Except.ok _ =>
    if !(companyExists o) then
      some (404, "Company record with ID " ++ recordId ++ " not found in CRM")
    else none

/-! ## Concrete fixtures used by witnesses and counterexamples -/

/-- Headers carrying only a HubSpot credential. -/
def hubspotOnlyHeaders : CRMHeaders :=
  { hubspotKey := some "hs-key", attioKey := none, zohoKey := none, salesforceKey := none }

/-- Headers carrying only an Attio credential. -/
def attioOnlyHeaders (k : String) : CRMHeaders :=
  { hubspotKey := none, attioKey := some k, zohoKey := none, salesforceKey := none }

/-- Headers carrying exactly one provider's credential header. -/
def onlyProviderHeaders : CRMProvider → String → CRMHeaders
  | CRMProvider.hubspot, k =>
    { hubspotKey := some k, attioKey := none, zohoKey := none, salesforceKey := none }
  | CRMProvider.attio, k =>
    { hubspotKey := none, attioKey := some k, zohoKey := none, salesforceKey := none }
  | CRMProvider.zoho, k =>
    { hubspotKey := none, attioKey := none, zohoKey := some k, salesforceKey := none }
  | CRMProvider.salesforce, k =>
    { hubspotKey := none, attioKey := none, zohoKey := none, salesforceKey := some k }

/-- A well-formed flat company object. -/
def acmeCompany : Json :=
  Json.obj [("name", Json.str "Acme Corp"), ("domain", Json.str "acme.com")]

/-- A valid merge request for record 111 with apply opted out. -/
def baseRequest : MergeRequest :=
  { apiKeyPresent := true, headers := hubspotOnlyHeaders, company := some acmeCompany,
    recordId := some (Json.str "111"), duplicateRules := none, primaryRules := none,
    mergeRules := none, mergePropertyRules := none, mergeRecord := false }

/-- The same request with apply opted in. -/
def applyRequest : MergeRequest := { baseRequest with mergeRecord := true }

/-- The same request with an empty company object. -/
def emptyCompanyRequest : MergeRequest :=
  { baseRequest with company := some (Json.obj []) }

/-- A company object containing a nested object. -/
def nestedCompany : Json :=
  Json.obj [("name", Json.str "Acme Corp"),
            ("address", Json.obj [("city", Json.str "SF")])]

/-- The same request with a nested company object. -/
def nestedCompanyRequest : MergeRequest :=
  { baseRequest with company := some nestedCompany }

/-- The same request authenticated only with an Attio credential. -/
def attioRequest : MergeRequest :=
  { baseRequest with headers := attioOnlyHeaders "attio-key" }

/-- Well-formed stage-1 output. -/
def acmeFilterGroups : List FilterGroup :=
  [{ filters := [{ propertyName := "domain", operator := "EQ",
                   value := some "acme.com", values := none }] }]

/-- Stage-1 output whose filter value carries trailing JSON punctuation. -/
def malformedFilterGroups : List FilterGroup :=
  [{ filters := [{ propertyName := "domain", operator := "EQ",
                   value := some malformedFilterValue, values := none }] }]

/-- The current record as the store returns it. -/
def rec111 : CompanyRec := { id := "111", properties := [] }

/-- A candidate duplicate. -/
def rec222 : CompanyRec := { id := "222", properties := [("name", "Acme Corporation")] }

/-- Environment in which the search finds only the record itself. -/
def baseEnv : MergeEnv :=
  { apiKeyValid := true, accessAllowed := true, bodyParses := true,
    step1 := some acmeFilterGroups,
    search := Except.ok [rec111],
    step2 := none,
    fetchPrimary := Except.error "HubSpot API error (404): not found",
    step3 := none,
    updateCompany := Except.ok (), mergeCall := Except.ok () }

/-- Environment where stage-1 emits the malformed filter value. -/
def malformedEnv : MergeEnv := { baseEnv with step1 := some malformedFilterGroups }

/-- Environment where a duplicate is found but stage 2 returns no content. -/
def noStep2Env : MergeEnv := { baseEnv with search := Except.ok [rec111, rec222] }

/-- A stage-2 decision with KEEP but a primary id that is neither the current
record nor a search candidate. -/
def keepDecision999 : MergeDecision :=
  { recommendedAction := "KEEP", reasoning := "model output", confidence := "HIGH",
    primaryRecordId := "999" }

/-- Environment exercising the stage-2 exit with `keepDecision999`. -/
def keepWrongPrimaryEnv : MergeEnv :=
  { baseEnv with search := Except.ok [rec111, rec222], step2 := some keepDecision999 }

/-- A stage-2 decision to merge into record 222. -/
def mergeDecision222 : MergeDecision :=
  { recommendedAction := "MERGE", reasoning := "confirmed duplicate", confidence := "HIGH",
    primaryRecordId := "222" }

/-- A non-empty stage-3 field-merge plan. -/
def samplePlan : FieldMerge :=
  { primaryRecordPropertiesToUpdate := [("phone", "+1-555-0123")],
    reasoning := "current record has a phone number", confidence := "HIGH" }

/-- Environment driving the pipeline through all three stages. -/
def fullPathEnv : MergeEnv :=
  { baseEnv with
    search := Except.ok [rec111, rec222]
    step2 := some mergeDecision222
    fetchPrimary := Except.ok rec222
    step3 := some samplePlan }

/-- Environment where the search call is rejected upstream. -/
def searchFailEnv : MergeEnv :=
  { baseEnv with search := Except.error "upstream raw error body" }

/-- Environment where the primary-record update is rejected upstream. -/
def updateFailEnv : MergeEnv :=
  { fullPathEnv with updateCompany := Except.error (403, "secret detail") }

/-- A stage-2 decision keeping the current record as primary. -/
def keepSelfDecision : MergeDecision :=
  { recommendedAction := "KEEP", reasoning := "current record is primary",
    confidence := "HIGH", primaryRecordId := "111" }

/-- Environment exercising the stage-2 exit with a self-primary KEEP. -/
def keepSelfEnv : MergeEnv :=
  { baseEnv with search := Except.ok [rec111, rec222], step2 := some keepSelfDecision }

/-- The search request body built from `acmeFilterGroups`. -/
def acmeSearchBody : SearchRequestBody :=
  { filterGroups := acmeFilterGroups, properties := searchProperties, limit := 100 }

/-! ## Shared characterization of a pipeline run -/

/-- Whether the detected CRM credential (if any) is for HubSpot. -/
def isHubspotDetected (h : CRMHeaders) : Bool :=
  match detectCRMFromHeaders h with
  | some c => c.provider == CRMProvider.hubspot
  | none => false

/-- The API key of the detected CRM credential, if any. -/
def detectedApiKey (h : CRMHeaders) : Option String :=
  (detectCRMFromHeaders h).map CRMCredentials.apiKey

/-- `createCRMClient` succeeds exactly for HubSpot, returning its key. -/
lemma createCRMClient_ok_iff (c : CRMCredentials) (k : String) :
    createCRMClient c = Except.ok k ↔ c.provider = CRMProvider.hubspot ∧ k = c.apiKey := by
  obtain ⟨prov, key⟩ := c
  cases prov <;> simp [createCRMClient, eq_comm]

/-- One shared characterization of everything the claim theorems need about a
pipeline run: cost accounting, decision-shape facts about the success
payload, the absence of tracking on error responses, that every search is
posted to the HubSpot endpoint with the detected credential's key and the
verbatim stage-1 filter groups, that fetch/update/merge events presuppose a
HubSpot credential, and that `mergeRecord = false` suppresses all store
writes. -/
lemma runMerge_run_props (req : MergeRequest) (env : MergeEnv)
    (r : MergeResult) (evs : List Event)
    (h : runMerge req env = (r, evs)) :
    (∀ p, r = MergeResult.success p →
      p.creditCost = inferenceCount evs
      ∧ trackedAmounts evs = [p.creditCost]
      ∧ (p.duplicatesFound = false → p.creditCost = 1 ∧ p.recommendedAction = "KEEP")
      ∧ (p.creditCost = 2 → (p.recommendedAction = "KEEP" ∨ p.primaryRecordId = some p.recordId))
      ∧ (p.fieldMergeAnalysis.isSome = true →
          p.creditCost = 3 ∧ p.recommendedAction ≠ "KEEP" ∧ p.primaryRecordId ≠ some p.recordId)
      ∧ (req.mergeRecord = false →
          p.recordMerged = false ∧ (p.fieldMergeAnalysis.isSome = true → p.recordUpdated = some false))
      ∧ (p.creditCost = 3 → isHubspotDetected req.headers = true)
      ∧ (p.creditCost = 1 ∨ p.creditCost = 2 ∨ p.creditCost = 3))
    ∧ (∀ st msg, r = MergeResult.errorResp st msg → trackedAmounts evs = [])
    ∧ (∀ u b sb, Event.storeSearch u b sb ∈ evs →
        u = hubspotSearchUrl ∧ sb.properties = searchProperties ∧ sb.limit = 100
        ∧ env.step1 = some sb.filterGroups ∧ detectedApiKey req.headers = some b)
    ∧ (∀ e, e ∈ evs → (isStoreFetchEvent e || isStoreWriteEvent e) = true →
        isHubspotDetected req.headers = true)
    ∧ (req.mergeRecord = false → storeWriteEvents evs = []) := by
  unfold runMerge at h
  repeat' split at h
  all_goals (try (unfold searchPhase at h; repeat' split at h))
  all_goals (try (unfold decidePhase at h; repeat' split at h))
  all_goals (try (unfold step3Phase at h; repeat' split at h))
  all_goals (try (unfold applyPhase at h; repeat' split at h))
  all_goals (try (unfold mergePhase at h; repeat' split at h))
  all_goals (
    simp only [Prod.mk.injEq] at h
    obtain ⟨hr, hev⟩ := h
    subst hr
    subst hev
    simp_all [earlyExitBody, keepExitBody, fullBody, inferenceCount, trackedAmounts,
      isInferenceEvent, isStoreFetchEvent, isStoreWriteEvent, storeWriteEvents,
      isHubspotDetected, detectedApiKey, createCRMClient_ok_iff])

/-! ## Claim theorems -/

/-- Claim C1: for every merge request that completes successfully, the
`creditCost` in the response and the amount passed to usage tracking equal
exactly the number of inference stages executed — 1 when zero other
duplicates remain (signalled by `duplicatesFound = false`), 2 when the
decision is KEEP or the chosen primary equals the current record, 3 on the
full path (signalled by a present field-merge analysis) — for every
environment, in particular unchanged by whether the apply step runs. -/
theorem merge_credit_cost_equals_stages_executed (req : MergeRequest) (env : MergeEnv)
    (p : SuccessBody) (evs : List Event)
    (h : runMerge req env = (MergeResult.success p, evs)) :
    p.creditCost = inferenceCount evs
    ∧ trackedAmounts evs = [p.creditCost]
    ∧ (p.duplicatesFound = false → p.creditCost = 1 ∧ p.recommendedAction = "KEEP")
    ∧ (p.creditCost = 2 → (p.recommendedAction = "KEEP" ∨ p.primaryRecordId = some p.recordId))
    ∧ (p.fieldMergeAnalysis.isSome = true → p.creditCost = 3)
    ∧ (p.creditCost = 1 ∨ p.creditCost = 2 ∨ p.creditCost = 3) := by
  obtain ⟨c1, c2, c3, c4, c5, _, _, c8⟩ := (runMerge_run_props req env _ _ h).1 p rfl
  exact ⟨c1, c2, c3, c4, fun hf => (c5 hf).1, c8⟩

/-- Witness for the cost theorem at a concrete early-exit run. -/
theorem merge_credit_cost_equals_stages_executed_witness :
    trackedAmounts [Event.inference 1,
      Event.storeSearch hubspotSearchUrl "hs-key" acmeSearchBody,
      Event.trackUsage 1] = [(earlyExitBody "111").creditCost] :=
  (merge_credit_cost_equals_stages_executed baseRequest baseEnv (earlyExitBody "111")
    [Event.inference 1, Event.storeSearch hubspotSearchUrl "hs-key" acmeSearchBody,
     Event.trackUsage 1] (by decide)).2.1

/-- Claim C2 counterexample: the stage-1 filter value `acme.com` followed by
trailing JSON punctuation reaches the record-store search exactly as the
inference produced it, not in the sanitized form `acme.com`. -/
theorem unsanitized_filter_value_counterexample :
    (runMerge baseRequest malformedEnv).2 =
      [Event.inference 1,
       Event.storeSearch hubspotSearchUrl "hs-key"
         { filterGroups := malformedFilterGroups, properties := searchProperties, limit := 100 },
       Event.trackUsage 1]
    ∧ malformedFilterGroups =
        [{ filters := [{ propertyName := "domain", operator := "EQ",
                         value := some malformedFilterValue, values := none }] }]
    ∧ specSanitizeFilterValue malformedFilterValue = "acme.com"
    ∧ malformedFilterValue ≠ "acme.com" := by
  exact ⟨by decide, rfl, by decide, by decide⟩

/-- Claim C2 (amended): every filter group list posted to the record-store
search is exactly the stage-1 inference output — no sanitization is applied
anywhere between inference and search — and the search always targets the
HubSpot endpoint with the detected credential's key. -/
theorem filter_groups_forwarded_verbatim (req : MergeRequest) (env : MergeEnv)
    (u b : String) (sb : SearchRequestBody)
    (h : Event.storeSearch u b sb ∈ (runMerge req env).2) :
    env.step1 = some sb.filterGroups
    ∧ u = hubspotSearchUrl ∧ sb.properties = searchProperties ∧ sb.limit = 100
    ∧ detectedApiKey req.headers = some b := by
  obtain ⟨t1, t2, t3, t4, t5⟩ := (runMerge_run_props req env _ _ rfl).2.2.1 u b sb h
  exact ⟨t4, t1, t2, t3, t5⟩

/-- Witness for the verbatim-forwarding theorem at the malformed-value run. -/
theorem filter_groups_forwarded_verbatim_witness :
    malformedEnv.step1 = some malformedFilterGroups :=
  (filter_groups_forwarded_verbatim baseRequest malformedEnv hubspotSearchUrl "hs-key"
    { filterGroups := malformedFilterGroups, properties := searchProperties, limit := 100 }
    (by decide)).1

/-- Claim C3 counterexample: when stage 2 returns no content after stage 1
completed, the route returns the 500 immediately and tracks no usage at all —
the stage-1 credit is not charged. -/
theorem abort_discards_completed_stage_credits_counterexample :
    runMerge baseRequest noStep2Env =
      (MergeResult.errorResp 500 "Failed to generate merge decision",
       [Event.inference 1, Event.storeSearch hubspotSearchUrl "hs-key" acmeSearchBody,
        Event.inference 2])
    ∧ inferenceCount
        [Event.inference 1, Event.storeSearch hubspotSearchUrl "hs-key" acmeSearchBody,
         Event.inference 2] = 2
    ∧ trackedAmounts
        [Event.inference 1, Event.storeSearch hubspotSearchUrl "hs-key" acmeSearchBody,
         Event.inference 2] = [] := by
  decide

/-- Claim C3 (amended): whenever the pipeline returns an error response — for
any reason, at any stage — no usage is tracked at all; usage is tracked only
on the success paths. -/
theorem no_usage_tracked_on_error_responses (req : MergeRequest) (env : MergeEnv)
    (st : Nat) (msg : String) (evs : List Event)
    (h : runMerge req env = (MergeResult.errorResp st msg, evs)) :
    trackedAmounts evs = [] :=
  (runMerge_run_props req env _ _ h).2.1 st msg rfl

/-- Witness for the no-tracking theorem at the stage-2 abort run. -/
theorem no_usage_tracked_on_error_responses_witness :
    trackedAmounts
      [Event.inference 1, Event.storeSearch hubspotSearchUrl "hs-key" acmeSearchBody,
       Event.inference 2] = [] :=
  no_usage_tracked_on_error_responses baseRequest noStep2Env 500
    "Failed to generate merge decision"
    [Event.inference 1, Event.storeSearch hubspotSearchUrl "hs-key" acmeSearchBody,
     Event.inference 2] (by decide)

/-- Claim C4 counterexample: a stage-2 decision of KEEP with primary id 999 —
neither the current record 111 nor the sole candidate 222 — is spread into
the response unchanged, violating both halves of the claimed invariant. -/
theorem keep_decision_foreign_primary_counterexample :
    (runMerge baseRequest keepWrongPrimaryEnv).1 =
      MergeResult.success (keepExitBody "111" [rec222] keepDecision999)
    ∧ (keepExitBody "111" [rec222] keepDecision999).recommendedAction = "KEEP"
    ∧ (keepExitBody "111" [rec222] keepDecision999).primaryRecordId = some "999"
    ∧ (keepExitBody "111" [rec222] keepDecision999).recordId = "111"
    ∧ ("999" : String) ≠ "111"
    ∧ (keepExitBody "111" [rec222] keepDecision999).duplicates.map CompanyRec.id = ["222"] := by
  decide

/-- Claim C4 (amended): the orchestrator enforces only its branch condition:
a cost-2 response satisfies `recommendedAction = KEEP` or a self primary id
(their disjunction, not the KEEP implication), and a response carrying a
field-merge analysis satisfies `recommendedAction ≠ KEEP` and a non-self
primary id.  Membership of the primary id in the candidate set is not
enforced anywhere. -/
theorem decision_branch_conditions_only (req : MergeRequest) (env : MergeEnv)
    (p : SuccessBody) (evs : List Event)
    (h : runMerge req env = (MergeResult.success p, evs)) :
    (p.creditCost = 2 → (p.recommendedAction = "KEEP" ∨ p.primaryRecordId = some p.recordId))
    ∧ (p.fieldMergeAnalysis.isSome = true →
        p.recommendedAction ≠ "KEEP" ∧ p.primaryRecordId ≠ some p.recordId) := by
  obtain ⟨_, _, _, c4, c5, _, _, _⟩ := (runMerge_run_props req env _ _ h).1 p rfl
  exact ⟨c4, fun hf => ⟨(c5 hf).2.1, (c5 hf).2.2⟩⟩

/-- Witness for the branch-condition theorem at the KEEP-with-999 run. -/
theorem decision_branch_conditions_only_witness :
    (keepExitBody "111" [rec222] keepDecision999).recommendedAction = "KEEP"
    ∨ (keepExitBody "111" [rec222] keepDecision999).primaryRecordId =
        some (keepExitBody "111" [rec222] keepDecision999).recordId :=
  (decision_branch_conditions_only baseRequest keepWrongPrimaryEnv
    (keepExitBody "111" [rec222] keepDecision999)
    [Event.inference 1, Event.storeSearch hubspotSearchUrl "hs-key" acmeSearchBody,
     Event.inference 2, Event.trackUsage 2] (by decide)).1 (by decide)

/-- Claim C5 counterexample: with `mergeRecord` false and a KEEP decision,
the response omits `recordUpdated` entirely (it is not reported as false) and
contains no field-merge plan, because stage 3 never ran. -/
theorem optout_response_shape_counterexample :
    baseRequest.mergeRecord = false
    ∧ (runMerge baseRequest keepSelfEnv).1 =
        MergeResult.success (keepExitBody "111" [rec222] keepSelfDecision)
    ∧ (keepExitBody "111" [rec222] keepSelfDecision).recordUpdated = none
    ∧ (keepExitBody "111" [rec222] keepSelfDecision).fieldMergeAnalysis = none := by
  decide

/-- Claim C5 (amended): with `mergeRecord` absent or false, no update and no
merge call is ever issued to the store, regardless of the decision; the
response always reports `recordMerged = false`, and the full-path response —
the one that contains a field-merge plan — also reports
`recordUpdated = false`.  Early-exit and stage-2-exit responses omit
`recordUpdated` and carry no plan. -/
theorem apply_gating_no_writes_when_opted_out (req : MergeRequest) (env : MergeEnv)
    (hm : req.mergeRecord = false) :
    storeWriteEvents (runMerge req env).2 = []
    ∧ (∀ p, (runMerge req env).1 = MergeResult.success p →
        p.recordMerged = false
        ∧ (p.fieldMergeAnalysis.isSome = true → p.recordUpdated = some false)) := by
  have hp := runMerge_run_props req env _ _ rfl
  refine ⟨hp.2.2.2.2 hm, fun p hs => ?_⟩
  obtain ⟨_, _, _, _, _, c6, _, _⟩ := hp.1 p hs
  exact c6 hm

/-- Witness for the apply-gating theorem at the opted-out full-path run. -/
theorem apply_gating_no_writes_when_opted_out_witness :
    storeWriteEvents (runMerge baseRequest fullPathEnv).2 = [] :=
  (apply_gating_no_writes_when_opted_out baseRequest fullPathEnv (by decide)).1

/-- Claim C6: on record-store failures the merge route embeds the raw
upstream error body in the message returned to the caller — for the search
(`CRM search failed: ${error}`) and for the update (the thrown `HubSpot API
error (status): body` is interpolated) — even though the repository's own
`sanitizeErrorMessage` would have replaced exactly such a message with the
generic fallback. -/
theorem crm_error_messages_embed_upstream_body :
    runMerge baseRequest searchFailEnv =
      (MergeResult.errorResp 500 "CRM search failed: upstream raw error body",
       [Event.inference 1, Event.storeSearch hubspotSearchUrl "hs-key" acmeSearchBody])
    ∧ jsIncludes "CRM search failed: upstream raw error body" "upstream raw error body" = true
    ∧ runMerge applyRequest updateFailEnv =
      (MergeResult.errorResp 500
         "Failed to update primary record in CRM: HubSpot API error (403): secret detail",
       [Event.inference 1, Event.storeSearch hubspotSearchUrl "hs-key" acmeSearchBody,
        Event.inference 2, Event.storeFetch "222", Event.inference 3,
        Event.storeUpdate "222" [("phone", "+1-555-0123")]])
    ∧ jsIncludes "Failed to update primary record in CRM: HubSpot API error (403): secret detail"
        "secret detail" = true
    ∧ sanitizeErrorMessage (some "HubSpot API error (403): secret detail") = genericErrorMessage
    ∧ sanitizeErrorMessage (some "upstream raw error body") = genericErrorMessage := by
  refine ⟨by decide, ?_, by decide, ?_, ?_, ?_⟩ <;> decide

/-- Claim C7: the merge route's only input checks are truthiness and `typeof`
on `company` and a non-blank string `recordId`; it accepts an empty company
object, a nested company object, and a 51-property company object — each of
which `validateCompanyObject` rejects — and runs the costed pipeline on them;
the wrong-content-type check (`validateContentType`) is likewise never
consulted by the route. -/
theorem merge_route_accepts_invalid_company_objects :
    (validateCompanyObject []).valid = false
    ∧ mergeCompanyAccepted (some (Json.obj [])) = true
    ∧ runMerge emptyCompanyRequest baseEnv =
        (MergeResult.success (earlyExitBody "111"),
         [Event.inference 1, Event.storeSearch hubspotSearchUrl "hs-key" acmeSearchBody,
          Event.trackUsage 1])
    ∧ (validateCompanyObject
        [("name", Json.str "Acme Corp"),
         ("address", Json.obj [("city", Json.str "SF")])]).valid = false
    ∧ runMerge nestedCompanyRequest baseEnv =
        (MergeResult.success (earlyExitBody "111"),
         [Event.inference 1, Event.storeSearch hubspotSearchUrl "hs-key" acmeSearchBody,
          Event.trackUsage 1])
    ∧ (validateCompanyObject (List.replicate 51 ("k", Json.str "v"))).valid = false
    ∧ mergeCompanyAccepted (some (Json.obj (List.replicate 51 ("k", Json.str "v")))) = true
    ∧ (validateContentType (some "text/plain")).valid = false := by
  decide

set_option maxRecDepth 8192 in
/-- Claim C8 counterexample: the clean endpoint's schema builder guards its
rule with plain truthiness, so the whitespace-only rule `" "` — which the
merge route's trim-guarded builders would ignore — is appended to the base
description, leaving the built schema different from the base. -/
theorem clean_builder_whitespace_rule_counterexample :
    jsTrim " " = ""
    ∧ buildCleanDescription CLEAN_BASE_DESCRIPTION (some " ") ≠ CLEAN_BASE_DESCRIPTION
    ∧ buildCleanDescription CLEAN_BASE_DESCRIPTION (some " ") =
        CLEAN_BASE_DESCRIPTION ++ cleanRuleSuffix ++ " " := by
  decide

/-- Claim C8 (amended): the merge pipeline's three stage builders leave the
schema exactly equal to the base for an absent, empty, or whitespace-only
rule (and whitespace-only per-property rules); the clean endpoint's builder
leaves the description unchanged for an absent or empty rule, but appends a
whitespace-only rule. -/
theorem blank_rules_leave_schemas_unchanged (base : StageSchema) (fbase : FieldMergeSchema)
    (cb : String) (r : Option String) (props : List (String × String))
    (hr : r = none ∨ ∃ s, r = some s ∧ jsTrim s = "")
    (hp : ∀ kv ∈ props, jsTrim kv.2 = "") :
    buildStep1Schema base r = base
    ∧ buildStep2Schema base r = base
    ∧ buildStep3Schema fbase r (some props) = fbase
    ∧ buildStep3Schema fbase r none = fbase
    ∧ ((r = none ∨ r = some "") → buildCleanDescription cb r = cb) := by
  have hguard : jsRuleProvided r = false := by
    rcases hr with rfl | ⟨s, rfl, hs⟩
    · rfl
    · simp [jsRuleProvided, hs]
  have hfilter : props.filter (fun kv => jsTrim kv.2 != "") = [] := by
    rw [List.filter_eq_nil_iff]
    intro kv hkv
    simp [hp kv hkv]
  have htext : propertyRulesText props = "" := by
    simp [propertyRulesText, hfilter, String.intercalate]
  refine ⟨?_, ?_, ?_, ?_, ?_⟩
  · simp [buildStep1Schema, hguard]
  · simp [buildStep2Schema, hguard]
  · simp [buildStep3Schema, hguard, htext]
  · simp [buildStep3Schema, hguard]
  · rintro (rfl | rfl) <;> simp [buildCleanDescription]

/-- Witness for the blank-rule theorem at concrete bases and a whitespace
rule. -/
theorem blank_rules_leave_schemas_unchanged_witness :
    buildStep1Schema { description := "B", structural := [] } (some " ") =
      { description := "B", structural := [] } :=
  (blank_rules_leave_schemas_unchanged { description := "B", structural := [] }
    { description := "F", propsDescription := "P", structural := [] } "C" (some " ")
    [("name", " ")] (Or.inr ⟨" ", rfl, by decide⟩) (by decide)).1

/-- Claim C9: `companyExists` is a total boolean — its `try/catch` turns
every thrown fetch error into `false`, and every non-2xx completion
(authentication failures and server errors included, not only 404) also
yields `false`, indistinguishable from a plain 404; consequently the clean
endpoint's pre-verification answers 404 in all of those cases. -/
theorem companyExists_false_on_all_failures (o : FetchOutcome)
    (hfail : fetchFailed o = true) :
    companyExists o = false
    ∧ companyExists o = companyExists (FetchOutcome.respStatus 404)
    ∧ (∀ key rid, cleanVerifyRecord { provider := CRMProvider.hubspot, apiKey := key } rid o =
        some (404, "Company record with ID " ++ rid ++ " not found in CRM")) := by
  have hfalse : companyExists o = false := by
    cases o with
    | respStatus s => simpa [fetchFailed, companyExists] using hfail
    | networkError m => rfl
  refine ⟨hfalse, by rw [hfalse]; decide, fun key rid => ?_⟩
  simp [cleanVerifyRecord, createCRMClient, hfalse]

/-- Witness for the existence-check theorem at a 401 (invalid credentials)
response. -/
theorem companyExists_false_on_all_failures_witness :
    companyExists (FetchOutcome.respStatus 401) = false :=
  (companyExists_false_on_all_failures (FetchOutcome.respStatus 401) (by decide)).1

/-- Claim C10: a merge request carrying only a non-HubSpot CRM credential
header — x-attio-api-key, x-zoho-api-key, or x-salesforce-api-key — passes
the CRM check; every search it issues goes to the HubSpot endpoint bearing
that foreign key; the pipeline never reaches a fetch/update/merge store
call — the client factory would throw the provider's "coming soon" error at
the fetch-primary stage — so any successful run is an early exit at cost 1
or 2, completed entirely against HubSpot with the wrong provider's
credential. -/
theorem foreign_credential_runs_against_hubspot (prov : CRMProvider) (k : String)
    (req : MergeRequest) (env : MergeEnv)
    (hprov : prov ≠ CRMProvider.hubspot) (hk : k ≠ "")
    (hh : req.headers = onlyProviderHeaders prov k) :
    detectCRMFromHeaders req.headers = some { provider := prov, apiKey := k }
    ∧ (∃ msg, createCRMClient { provider := prov, apiKey := k } = Except.error msg
        ∧ jsIncludes msg "coming soon" = true)
    ∧ (∀ u b sb, Event.storeSearch u b sb ∈ (runMerge req env).2 →
        u = hubspotSearchUrl ∧ b = k)
    ∧ (∀ e, e ∈ (runMerge req env).2 → (isStoreFetchEvent e || isStoreWriteEvent e) = false)
    ∧ (∀ p, (runMerge req env).1 = MergeResult.success p →
        p.creditCost = 1 ∨ p.creditCost = 2) := by
  have hdet : detectCRMFromHeaders req.headers =
      some { provider := prov, apiKey := k } := by
    rw [hh]
    cases prov with
    | hubspot => exact absurd rfl hprov
    | attio => simp [detectCRMFromHeaders, onlyProviderHeaders, presentHeader, hk]
    | zoho => simp [detectCRMFromHeaders, onlyProviderHeaders, presentHeader, hk]
    | salesforce => simp [detectCRMFromHeaders, onlyProviderHeaders, presentHeader, hk]
  have hnothub : isHubspotDetected req.headers = false := by
    simp [isHubspotDetected, hdet, hprov]
  have hclient : ∃ msg, createCRMClient { provider := prov, apiKey := k } = Except.error msg
      ∧ jsIncludes msg "coming soon" = true := by
    cases prov with
    | hubspot => exact absurd rfl hprov
    | attio => exact ⟨_, rfl, by decide⟩
    | zoho => exact ⟨_, rfl, by decide⟩
    | salesforce => exact ⟨_, rfl, by decide⟩
  have hp := runMerge_run_props req env _ _ rfl
  refine ⟨hdet, hclient, fun u b sb hmem => ?_, fun e hmem => ?_, fun p hs => ?_⟩
  · obtain ⟨t1, _, _, _, t5⟩ := hp.2.2.1 u b sb hmem
    have hk2 : detectedApiKey req.headers = some k := by simp [detectedApiKey, hdet]
    exact ⟨t1, (Option.some.inj (hk2.symm.trans t5)).symm⟩
  · cases hb : (isStoreFetchEvent e || isStoreWriteEvent e) with
    | false => rfl
    | true => exact absurd (hp.2.2.2.1 e hmem hb) (by simp [hnothub])
  · obtain ⟨_, _, _, _, _, _, c7, c8⟩ := hp.1 p hs
    rcases c8 with h1 | h2 | h3
    · exact Or.inl h1
    · exact Or.inr h2
    · exact absurd (c7 h3) (by simp [hnothub])

/-- Witness for the foreign-credential theorem at concrete Attio-only,
Zoho-only and Salesforce-only requests. -/
theorem foreign_credential_runs_against_hubspot_witness :
    detectCRMFromHeaders (attioOnlyHeaders "attio-key") =
      some { provider := CRMProvider.attio, apiKey := "attio-key" }
    ∧ detectCRMFromHeaders (onlyProviderHeaders CRMProvider.zoho "zoho-key") =
      some { provider := CRMProvider.zoho, apiKey := "zoho-key" }
    ∧ detectCRMFromHeaders (onlyProviderHeaders CRMProvider.salesforce "sf-key") =
      some { provider := CRMProvider.salesforce, apiKey := "sf-key" } :=
  ⟨(foreign_credential_runs_against_hubspot CRMProvider.attio "attio-key"
      attioRequest baseEnv (by decide) (by decide) rfl).1,
   (foreign_credential_runs_against_hubspot CRMProvider.zoho "zoho-key"
      { baseRequest with headers := onlyProviderHeaders CRMProvider.zoho "zoho-key" }
      baseEnv (by decide) (by decide) rfl).1,
   (foreign_credential_runs_against_hubspot CRMProvider.salesforce "sf-key"
      { baseRequest with headers := onlyProviderHeaders CRMProvider.salesforce "sf-key" }
      baseEnv (by decide) (by decide) rfl).1⟩
